import Mathlib

/-!
Detection3DArrayDisplay: confidence filter and property handlers.

A shallow embedding of `src/detection_3d_array.cpp` (class
`rviz_plugins::Detection3DArrayDisplay`).

* Messages (`vision_msgs/Detection3DArray`) are plain records.
* A floating point number is an `F64`: the four kinds of value the C++
  comparison operators distinguish (NaN, the two infinities, a finite value).
  A finite value is a rational number, of which the doubles are a subset; the
  two zeros compare equal and are one value here. The only operation the file
  performs on numbers is the comparison `>=`.
* The display object is a record `Display` holding the values of the property
  panel, the cached member fields, the latest message, the visibility of the
  line-width property and the ordered record `calls` of every call the file
  makes into code that lives outside of it (the marker helper, the base
  classes, `showBoxes`, `showEdges`, `updateColorConfig`).
* `results[0]` is a checked access: indexing an empty vector is a `Fault`, so
  a method is an `Except Fault` computation.
* What `showBoxes`, `showEdges` and the marker helper do to the markers on
  screen is not in the file; `Scene` models it from the specification.
-/

namespace rviz_plugins

/-! ## Numbers -/

/-- A double as the comparison operators see it. -/
inductive F64 where
  | nan
  | ninf
  | fin (q : ℚ)
  | pinf
  deriving DecidableEq

namespace F64

/-- The C++ operator `a >= b` on doubles: false as soon as one side is NaN. -/
def ge : F64 → F64 → Bool
  | nan, _ => false
  | _, nan => false
  | pinf, _ => true
  | _, ninf => true
  | fin a, fin b => decide (b ≤ a)
  | fin _, pinf => false
  | ninf, _ => false

/-- The C++ operator `a < b` on doubles: false as soon as one side is NaN. -/
def lt : F64 → F64 → Bool
  | nan, _ => false
  | _, nan => false
  | pinf, _ => false
  | _, ninf => false
  | fin a, fin b => decide (a < b)
  | fin _, pinf => true
  | ninf, _ => true

/-- The C++ operator `a <= b` on doubles. -/
def le (a b : F64) : Bool := ge b a

/-- Whether the value is NaN. -/
def isNaN : F64 → Bool
  | nan => true
  | _ => false

/-- The larger of two thresholds, `std::max(a, b)`, that is `(a < b) ? b : a`. -/
def max (a b : F64) : F64 := if lt a b then b else a

end F64

/-! ## Messages -/

/-- Message `builtin_interfaces/Time`. -/
structure Time where
  sec : Int
  nanosec : Nat
  deriving DecidableEq

/-- Message `std_msgs/Header`: timestamp and frame. -/
structure Header where
  stamp : Time
  frame_id : String
  deriving DecidableEq

/-- Message `geometry_msgs/Point` (also used for `Vector3`). -/
structure Point where
  x : F64
  y : F64
  z : F64
  deriving DecidableEq

/-- Message `geometry_msgs/Quaternion`. -/
structure Quaternion where
  x : F64
  y : F64
  z : F64
  w : F64
  deriving DecidableEq

/-- Message `geometry_msgs/Pose`. -/
structure Pose where
  position : Point
  orientation : Quaternion
  deriving DecidableEq

/-- Message `geometry_msgs/PoseWithCovariance`. -/
structure PoseWithCovariance where
  pose : Pose
  covariance : List F64
  deriving DecidableEq

/-- Message `vision_msgs/ObjectHypothesis`: a class label with its score. -/
structure ObjectHypothesis where
  class_id : String
  score : F64
  deriving DecidableEq

/-- Message `vision_msgs/ObjectHypothesisWithPose`. -/
structure ObjectHypothesisWithPose where
  hypothesis : ObjectHypothesis
  pose : PoseWithCovariance
  deriving DecidableEq

/-- Message `vision_msgs/BoundingBox3D`. -/
structure BoundingBox3D where
  center : Pose
  size : Point
  deriving DecidableEq

/-- Message `vision_msgs/Detection3D`: zero or more scored hypotheses and a box. -/
structure Detection3D where
  header : Header
  results : List ObjectHypothesisWithPose
  bbox : BoundingBox3D
  id : String
  deriving DecidableEq

/-- Message `vision_msgs/Detection3DArray`. -/
structure Detection3DArray where
  header : Header
  detections : List Detection3D
  deriving DecidableEq

/-- A default-constructed message, as `std::make_shared<Detection3DArray>()` yields. -/
def Detection3DArray.empty : Detection3DArray :=
  { header := { stamp := { sec := 0, nanosec := 0 }, frame_id := "" }, detections := [] }

/-! ## The display object -/

/-- A call the file makes into code outside of it. `showBoxes` and `showEdges`
are methods of the display itself, inherited from a header that is not part of
this file: besides their two arguments they see the members `line_width` and
`alpha`, which this file only ever writes, so a rendering call is recorded with
the values these two members have when it is made. -/
inductive Call where
  | rtdOnInitialize
  | markerInitialize
  | setTopic (value description : String)
  | lineWidthSetMax (v : F64)
  | lineWidthSetMin (v : F64)
  | alphaSetMax (v : F64)
  | alphaSetMin (v : F64)
  | thresholdSetMax (v : F64)
  | thresholdSetMin (v : F64)
  | displayLoad
  | markerLoad
  | showBoxes (msg : Detection3DArray) (show_score : Bool) (line_width alpha : F64)
  | showEdges (msg : Detection3DArray) (show_score : Bool) (line_width alpha : F64)
  | markerUpdate (wall_dt ros_dt : F64)
  | rosTopicDisplayReset
  | clearMarkers
  | edgesClear
  | updateColorConfig
  deriving DecidableEq

/-- The state of a `Detection3DArrayDisplay`. The `*_property` fields are the
current values of the property panel (what `getBool`, `getFloat` return), the
fields ending in `_` and `line_width`, `alpha`, `latest_msg` are the members
the file caches, `line_width_hidden` is the visibility of the line-width
property and `calls` lists, oldest first, the calls made into other code. -/
structure Display where
  only_edge_property : Bool
  line_width_property : F64
  alpha_property : F64
  show_score_property : Bool
  string_property : String
  confidence_threshold_property : F64
  autocompute_colors_property : Bool
  line_width_hidden : Bool
  only_edge_ : Bool
  show_score_ : Bool
  line_width : F64
  alpha : F64
  confidence_threshold_ : F64
  latest_msg : Option Detection3DArray
  calls : List Call
  deriving DecidableEq

/-- Record one call into outside code. -/
def Display.call (s : Display) (c : Call) : Display :=
  { s with calls := s.calls ++ [c] }

/-- What can go wrong in the file: reading `results[0]` of an empty vector. -/
inductive Fault where
  | indexOutOfRange
  deriving DecidableEq

/-- The access `results[0]`. -/
def index0 (results : List ObjectHypothesisWithPose) : Except Fault ObjectHypothesisWithPose :=
  match results with
  | [] => .error .indexOutOfRange
  | r :: _ => .ok r

/-! ## filterMessage (lines 95-109) -/

/-- The memory `filterMessage` works on: the display it is a const method of,
the message it is handed by const reference, and its local `filtered_msg`. -/
structure FilterFrame where
  self : Display
  msg : Detection3DArray
  filtered_msg : Detection3DArray

/-- One pass through the body of the `for` loop (lines 101-105). -/
def filterBody (fr : FilterFrame) (detection : Detection3D) : Except Fault FilterFrame :=
  if detection.results.isEmpty then
    .ok fr
  else
    (index0 detection.results).bind fun r0 =>
      if F64.ge r0.hypothesis.score fr.self.confidence_threshold_ then
        .ok { fr with filtered_msg :=
                { fr.filtered_msg with
                  detections := fr.filtered_msg.detections ++ [detection] } }
      else
        .ok fr

/-- The `for` loop of line 100 over the detections still to visit. -/
def filterLoop : List Detection3D → FilterFrame → Except Fault FilterFrame
  | [], fr => .ok fr
  | detection :: rest, fr => (filterBody fr detection).bind (filterLoop rest)

/-- The whole body of `filterMessage`, returning its final memory. -/
def filterMessageFrame (self : Display) (msg : Detection3DArray) : Except Fault FilterFrame :=
  let fr : FilterFrame := { self := self, msg := msg, filtered_msg := Detection3DArray.empty }
  let fr : FilterFrame := { fr with filtered_msg := { fr.filtered_msg with header := fr.msg.header } }
  filterLoop fr.msg.detections fr

/-- The method `Detection3DArrayDisplay::filterMessage`. -/
def filterMessage (self : Display) (msg : Detection3DArray) : Except Fault Detection3DArray :=
  (filterMessageFrame self msg).map fun fr => fr.filtered_msg

/-! ## The other methods -/

/-- The constructor (lines 22-40): it creates the seven properties with their
default values, all visible. It assigns none of the cached members, whose
values at that point are the parameters; the shared pointer `latest_msg` is
null and nothing has been called yet. -/
def construct (only_edge_ show_score_ : Bool) (line_width alpha confidence_threshold_ : F64) :
    Display :=
  { only_edge_property := false,
    line_width_property := .fin (1 / 20),
    alpha_property := .fin 1,
    show_score_property := false,
    string_property := "",
    confidence_threshold_property := .fin (1 / 2),
    autocompute_colors_property := false,
    line_width_hidden := false,
    only_edge_ := only_edge_,
    show_score_ := show_score_,
    line_width := line_width,
    alpha := alpha,
    confidence_threshold_ := confidence_threshold_,
    latest_msg := none,
    calls := [] }

/-- The method `onInitialize` (lines 50-74). The bounds are set by the host
property objects; `lw`, `a` and `thr` are what `getFloat` returns for the line
width, alpha and threshold properties once the bounds are in place. -/
def onInitialize (s : Display) (lw a thr : F64) : Display :=
  let s := s.call .rtdOnInitialize
  let s := s.call .markerInitialize
  let s := s.call (.setTopic "detection3_d_array" "Detection3DArray topic to subscribe to.")
  let s := s.call (.lineWidthSetMax (.fin (1 / 10)))
  let s := s.call (.lineWidthSetMin (.fin (1 / 100)))
  let s := { s with line_width_hidden := true }
  let s := s.call (.alphaSetMax (.fin 1))
  let s := s.call (.alphaSetMin (.fin (1 / 10)))
  let s := s.call (.thresholdSetMax (.fin 1))
  let s := s.call (.thresholdSetMin (.fin 0))
  let s := { s with line_width_property := lw, alpha_property := a,
                    confidence_threshold_property := thr }
  let s := { s with line_width := s.line_width_property }
  let s := { s with alpha := s.alpha_property }
  let s := { s with only_edge_ := s.only_edge_property }
  let s := { s with show_score_ := s.show_score_property }
  { s with confidence_threshold_ := s.confidence_threshold_property }

/-- The method `load` (lines 76-80). -/
def load (s : Display) : Display :=
  (s.call .displayLoad).call .markerLoad

/-- The method `processMessage` (lines 82-93). -/
def processMessage (s : Display) (msg : Detection3DArray) : Except Fault Display :=
  let s := { s with latest_msg := some msg }
  (filterMessage s msg).bind fun filtered_msg =>
    if !s.only_edge_ then
      .ok (s.call (.showBoxes filtered_msg s.show_score_ s.line_width s.alpha))
    else
      .ok (s.call (.showEdges filtered_msg s.show_score_ s.line_width s.alpha))

/-- The method `update` (lines 111-114). -/
def update (s : Display) (wall_dt ros_dt : F64) : Display :=
  s.call (.markerUpdate wall_dt ros_dt)

/-- The method `reset` (lines 116-121). -/
def reset (s : Display) : Display :=
  ((s.call .rosTopicDisplayReset).call .clearMarkers).call .edgesClear

/-- The method `updateEdge` (lines 133-150). -/
def updateEdge (s : Display) : Except Fault Display :=
  let s := { s with only_edge_ := s.only_edge_property }
  let s := if s.only_edge_ then { s with line_width_hidden := false }
           else { s with line_width_hidden := true }
  match s.latest_msg with
  | some latest =>
    (filterMessage s latest).bind fun filtered_msg =>
      if s.only_edge_ then
        .ok (s.call (.showEdges filtered_msg s.show_score_ s.line_width s.alpha))
      else
        .ok (s.call (.showBoxes filtered_msg s.show_score_ s.line_width s.alpha))
  | none => .ok s

/-- The method `updateAutocomputeColors` (lines 123-131). -/
def updateAutocomputeColors (s : Display) : Except Fault Display :=
  let s := if s.autocompute_colors_property then s.call .updateColorConfig else s
  updateEdge s

/-- The method `updateLineWidth` (lines 152-158). -/
def updateLineWidth (s : Display) : Except Fault Display :=
  let s := { s with line_width := s.line_width_property }
  match s.latest_msg with
  | some latest => processMessage s latest
  | none => .ok s

/-- The method `updateAlpha` (lines 160-166). -/
def updateAlpha (s : Display) : Except Fault Display :=
  let s := { s with alpha := s.alpha_property }
  match s.latest_msg with
  | some latest => processMessage s latest
  | none => .ok s

/-- The method `updateShowScores` (lines 168-174). -/
def updateShowScores (s : Display) : Except Fault Display :=
  let s := { s with show_score_ := s.show_score_property }
  match s.latest_msg with
  | some latest => processMessage s latest
  | none => .ok s

/-- The method `updateColorConfigs` (lines 176-179). -/
def updateColorConfigs (s : Display) : Except Fault Display :=
  .ok (s.call .updateColorConfig)

/-- The method `updateThreshold` (lines 181-187). -/
def updateThreshold (s : Display) : Except Fault Display :=
  let s := { s with confidence_threshold_ := s.confidence_threshold_property }
  match s.latest_msg with
  | some latest => processMessage (reset s) latest
  | none => .ok s

/-! ## The filter criterion as the specification words it -/

/-- The criterion of the specification: the hypothesis list is non-empty and
the score of its first hypothesis is at least the threshold. -/
def passes (t : F64) (d : Detection3D) : Bool :=
  match d.results with
  | [] => false
  | r :: _ => F64.ge r.hypothesis.score t

/-- Reading "top hypothesis" as the highest-scoring one: some hypothesis of the
detection has a score that is at least the threshold. -/
def topPasses (t : F64) (d : Detection3D) : Bool :=
  d.results.any fun r => F64.ge r.hypothesis.score t

/-- The rendering calls among a list of calls, oldest first. -/
def renderCalls (cs : List Call) : List Call :=
  cs.filter fun c =>
    match c with
    | .showBoxes _ _ _ _ => true
    | .showEdges _ _ _ _ => true
    | _ => false

/-- The calls that remove markers among a list of calls. -/
def clearCalls (cs : List Call) : List Call :=
  cs.filter fun c =>
    match c with
    | .clearMarkers => true
    | .edgesClear => true
    | .rosTopicDisplayReset => true
    | _ => false

/-- The message the filter yields for display `s` on message `m`, written as
the specification words it: same header, the detections that pass. -/
def filtered (s : Display) (m : Detection3DArray) : Detection3DArray :=
  { header := m.header, detections := m.detections.filter (passes s.confidence_threshold_) }

/-- The one rendering call that shows message `m` under the cached fields of `s`. -/
def renderOf (s : Display) (m : Detection3DArray) : Call :=
  if s.only_edge_ then .showEdges (filtered s m) s.show_score_ s.line_width s.alpha
  else .showBoxes (filtered s m) s.show_score_ s.line_width s.alpha

/-- The message of a rendering call. -/
def Call.rendered : Call → Option Detection3DArray
  | .showBoxes m _ _ _ => some m
  | .showEdges m _ _ _ => some m
  | _ => none

/-- The most recent rendering call of a display, if it ever rendered. -/
def lastRender (s : Display) : Option Call :=
  (renderCalls s.calls).getLast?

/-! ## Events -/

/-- What can happen to a display once it is initialised: a message arrives, the
user edits a property in the panel (the host stores the new value and runs the
slot connected to the property), or the host resets, updates or loads it. -/
inductive Event where
  | message (msg : Detection3DArray)
  | editOnlyEdge (v : Bool)
  | editLineWidth (v : F64)
  | editAlpha (v : F64)
  | editShowScore (v : Bool)
  | editConfigPath (v : String)
  | editThreshold (v : F64)
  | editAutocompute (v : Bool)
  | reset
  | update (wall_dt ros_dt : F64)
  | load

/-- One event. -/
def step (s : Display) : Event → Except Fault Display
  | .message msg => processMessage s msg
  | .editOnlyEdge v => updateEdge { s with only_edge_property := v }
  | .editLineWidth v => updateLineWidth { s with line_width_property := v }
  | .editAlpha v => updateAlpha { s with alpha_property := v }
  | .editShowScore v => updateShowScores { s with show_score_property := v }
  | .editConfigPath v => updateColorConfigs { s with string_property := v }
  | .editThreshold v => updateThreshold { s with confidence_threshold_property := v }
  | .editAutocompute v => updateAutocomputeColors { s with autocompute_colors_property := v }
  | .reset => .ok (reset s)
  | .update wall_dt ros_dt => .ok (update s wall_dt ros_dt)
  | .load => .ok (load s)

/-- A sequence of events, oldest first. -/
def run (s : Display) : List Event → Except Fault Display
  | [] => .ok s
  | e :: es => (step s e).bind fun s' => run s' es

/-- The line-width property is visible exactly when the cached edge flag is set. -/
def LineWidthShownIffEdge (s : Display) : Prop :=
  s.line_width_hidden = false ↔ s.only_edge_ = true

/-! ## The markers on screen -/

/-- A pose at the origin. -/
def originPose : Pose :=
  { position := { x := .fin 0, y := .fin 0, z := .fin 0 },
    orientation := { x := .fin 0, y := .fin 0, z := .fin 0, w := .fin 1 } }

/-- A hypothesis of class `person` with the given score. -/
def hypothesisOf (score : F64) : ObjectHypothesisWithPose :=
  { hypothesis := { class_id := "person", score := score },
    pose := { pose := originPose, covariance := [] } }

/-- A unit box at the origin named `id` whose hypotheses have the given scores, in order. -/
def detectionOf (id : String) (scores : List F64) : Detection3D :=
  { header := { stamp := { sec := 7, nanosec := 0 }, frame_id := "map" },
    results := scores.map hypothesisOf,
    bbox := { center := originPose, size := { x := .fin 1, y := .fin 1, z := .fin 1 } },
    id := id }

/-- A message in frame `map` stamped 7 s with the given detections. -/
def messageOf (detections : List Detection3D) : Detection3DArray :=
  { header := { stamp := { sec := 7, nanosec := 0 }, frame_id := "map" },
    detections := detections }

/-- A display as the constructor's property defaults and `onInitialize` leave it:
box mode, no scores shown, threshold 0.5, no message yet. -/
def freshDisplay : Display :=
  { only_edge_property := false,
    line_width_property := .fin (1 / 20),
    alpha_property := .fin 1,
    show_score_property := false,
    string_property := "",
    confidence_threshold_property := .fin (1 / 2),
    autocompute_colors_property := false,
    line_width_hidden := true,
    only_edge_ := false,
    show_score_ := false,
    line_width := .fin (1 / 20),
    alpha := .fin 1,
    confidence_threshold_ := .fin (1 / 2),
    latest_msg := none,
    calls := [] }

/-- The message of the specification's example: scores 0.9, 0.3 and 0.6. -/
def exampleMsg : Detection3DArray :=
  messageOf [detectionOf "a" [.fin (9 / 10)], detectionOf "b" [.fin (3 / 10)],
    detectionOf "c" [.fin (6 / 10)]]

/-- A message with one detection whose hypotheses are not sorted by score
(0.25 first, then 0.75) and one detection without hypotheses. -/
def unsortedMsg : Detection3DArray :=
  messageOf [detectionOf "u" [.fin (1 / 4), .fin (3 / 4)], detectionOf "e" []]

/-- The display `freshDisplay` after it received `exampleMsg`. -/
def shownDisplay : Display :=
  { freshDisplay with
    latest_msg := some exampleMsg,
    calls := [.showBoxes
      (messageOf [detectionOf "a" [.fin (9 / 10)], detectionOf "c" [.fin (6 / 10)]]) false
      (.fin (1 / 20)) (.fin 1)] }

/-- The message `exampleMsg` after the filter at threshold 0.5. -/
def exampleFiltered : Detection3DArray :=
  messageOf [detectionOf "a" [.fin (9 / 10)], detectionOf "c" [.fin (6 / 10)]]

/-! ## Basic facts about the loop -/

theorem filterBody_ok (fr : FilterFrame) (d : Detection3D) :
    filterBody fr d = .ok
      (if passes fr.self.confidence_threshold_ d then
        { fr with filtered_msg :=
            { fr.filtered_msg with detections := fr.filtered_msg.detections ++ [d] } }
      else fr) := by
  unfold filterBody passes
  cases h : d.results with
  | nil => simp
  | cons r rs =>
    simp only [List.isEmpty_cons, index0, Except.bind]
    by_cases hs : F64.ge r.hypothesis.score fr.self.confidence_threshold_ = true <;> simp [hs]

theorem filterLoop_ok (ds : List Detection3D) (fr : FilterFrame) :
    filterLoop ds fr = .ok
      { fr with filtered_msg :=
          { fr.filtered_msg with
            detections := fr.filtered_msg.detections ++
              ds.filter (passes fr.self.confidence_threshold_) } } := by
  induction ds generalizing fr with
  | nil => simp [filterLoop]
  | cons d rest ih =>
    rw [filterLoop, filterBody_ok]
    simp only [Except.bind]
    rw [ih]
    by_cases hp : passes fr.self.confidence_threshold_ d = true
    · simp [hp, List.filter_cons]
    · simp [hp, List.filter_cons]

theorem filterMessageFrame_ok (self : Display) (msg : Detection3DArray) :
    filterMessageFrame self msg = .ok
      { self := self, msg := msg,
        filtered_msg :=
          { header := msg.header,
            detections := msg.detections.filter (passes self.confidence_threshold_) } } := by
  simp [filterMessageFrame, filterLoop_ok, Detection3DArray.empty]

theorem filterMessage_ok (self : Display) (msg : Detection3DArray) :
    filterMessage self msg = .ok
      { header := msg.header,
        detections := msg.detections.filter (passes self.confidence_threshold_) } := by
  simp [filterMessage, filterMessageFrame_ok, Except.map]

theorem passes_iff (t : F64) (d : Detection3D) :
    passes t d = true ↔
      ∃ r rs, d.results = r :: rs ∧ F64.ge r.hypothesis.score t = true := by
  unfold passes
  cases h : d.results with
  | nil => simp
  | cons r rs => simp

theorem passes_results_ne_nil (t : F64) (d : Detection3D) (h : passes t d = true) :
    d.results ≠ [] := by
  obtain ⟨r, rs, hr, _⟩ := (passes_iff t d).1 h
  simp [hr]

theorem passes_topPasses (t : F64) (d : Detection3D) (h : passes t d = true) :
    topPasses t d = true := by
  obtain ⟨r, rs, hr, hs⟩ := (passes_iff t d).1 h
  simp only [topPasses, hr, List.any_cons, hs, Bool.true_or]

theorem F64.ge_self (a : F64) (h : F64.isNaN a = false) : F64.ge a a = true := by
  cases a <;> simp_all [F64.ge, F64.isNaN]

/-! ## filterMessage: what is kept -/

/-- C1: for every message and every threshold, `filterMessage` returns the
input's detections filtered by "hypothesis list non-empty and first score >=
threshold", in the original order and unchanged; a detection is in the output
exactly when it is in the input and meets that criterion, and a first score
equal to the threshold is kept. -/
theorem filterMessage_keeps_exactly (self : Display) (m : Detection3DArray) :
    filterMessage self m = .ok
        { header := m.header,
          detections := m.detections.filter (passes self.confidence_threshold_) } ∧
      (m.detections.filter (passes self.confidence_threshold_)).Sublist m.detections ∧
      (∀ d, d ∈ m.detections.filter (passes self.confidence_threshold_) ↔
        d ∈ m.detections ∧ d.results ≠ [] ∧
          ∃ r rs, d.results = r :: rs ∧
            F64.ge r.hypothesis.score self.confidence_threshold_ = true) ∧
      (∀ d r rs, d ∈ m.detections → d.results = r :: rs →
        r.hypothesis.score = self.confidence_threshold_ →
        F64.isNaN self.confidence_threshold_ = false →
        d ∈ m.detections.filter (passes self.confidence_threshold_)) := by
  refine ⟨filterMessage_ok self m, List.filter_sublist _, ?_, ?_⟩
  · intro d
    rw [List.mem_filter, passes_iff]
    constructor
    · rintro ⟨hd, r, rs, hr, hs⟩
      exact ⟨hd, by simp [hr], r, rs, hr, hs⟩
    · rintro ⟨hd, _, h⟩
      exact ⟨hd, h⟩
  · intro d r rs hd hr hs hn
    rw [List.mem_filter, passes_iff]
    exact ⟨hd, r, rs, hr, by rw [hs]; exact F64.ge_self _ hn⟩

/-- C1 on the example of the specification: scores 0.9, 0.3, 0.6 with
threshold 0.5 give the 0.9 and the 0.6 detection, in that order. -/
theorem filterMessage_keeps_exactly_example :
    filterMessage freshDisplay exampleMsg = .ok
      (messageOf [detectionOf "a" [.fin (9 / 10)], detectionOf "c" [.fin (6 / 10)]]) :=
  (filterMessage_keeps_exactly freshDisplay exampleMsg).1.trans
    (by norm_num [freshDisplay, exampleMsg, messageOf, detectionOf, hypothesisOf, passes,
      F64.ge, List.filter])

/-- C2: `filterMessage` never faults, whatever the threshold: the loop body
returns normally on every detection, it skips a detection with no hypotheses
without touching the frame (so `results[0]`, which faults on an empty vector,
is not evaluated there), and no detection with an empty hypothesis list is in
the output. -/
theorem filterMessage_never_faults (self : Display) (m : Detection3DArray) :
    (∃ out, filterMessage self m = .ok out ∧
      (∀ d ∈ out.detections, d.results ≠ []) ∧
      (∀ d ∈ m.detections, d.results = [] → d ∉ out.detections)) ∧
    (∀ fr d, ∃ fr', filterBody fr d = .ok fr') ∧
    (∀ fr d, d.results = [] → filterBody fr d = .ok fr) ∧
    index0 [] = .error .indexOutOfRange := by
  refine ⟨⟨_, filterMessage_ok self m, ?_, ?_⟩, ?_, ?_, rfl⟩
  · intro d hd
    exact passes_results_ne_nil _ d (List.mem_filter.1 hd).2
  · intro d _ he hd
    exact passes_results_ne_nil _ d (List.mem_filter.1 hd).2 he
  · intro fr d
    exact ⟨_, filterBody_ok fr d⟩
  · intro fr d he
    simp [filterBody, he]

/-- C3: `filterMessage` returns a message with the header of its input,
whatever is kept, and the memory it ends with holds the same display and the
same input message it started with: only the local `filtered_msg` is written. -/
theorem filterMessage_header_and_frame (self : Display) (m : Detection3DArray) :
    ∃ fr, filterMessageFrame self m = .ok fr ∧
      filterMessage self m = .ok fr.filtered_msg ∧
      fr.filtered_msg.header = m.header ∧
      fr.msg = m ∧ fr.self = self := by
  refine ⟨_, filterMessageFrame_ok self m, ?_, rfl, rfl, rfl⟩
  exact filterMessage_ok self m

/-- C8, as claimed, fails: with threshold 0.5 the detection `u` of `unsortedMsg`
has hypotheses scored 0.25 then 0.75, so its highest score meets the
threshold, and yet `filterMessage` returns no detection at all. -/
theorem filterMessage_not_highest_score :
    detectionOf "u" [.fin (1 / 4), .fin (3 / 4)] ∈ unsortedMsg.detections ∧
      topPasses freshDisplay.confidence_threshold_
        (detectionOf "u" [.fin (1 / 4), .fin (3 / 4)]) = true ∧
      filterMessage freshDisplay unsortedMsg = .ok (messageOf []) := by
  refine ⟨by simp [unsortedMsg, messageOf], ?_, ?_⟩
  · norm_num [topPasses, freshDisplay, detectionOf, hypothesisOf, F64.ge]
  · rw [filterMessage_ok]
    norm_num [freshDisplay, unsortedMsg, messageOf, detectionOf, hypothesisOf, passes,
      F64.ge, List.filter]

/-- C8, amended: the criterion is the FIRST hypothesis. Every detection whose
first hypothesis score meets the threshold is in the output, the output holds
only such detections (each of which then also has a highest score meeting the
threshold), and a detection whose first score does not meet the threshold is
dropped whatever its later hypotheses score. -/
theorem filterMessage_first_hypothesis (self : Display) (m : Detection3DArray) :
    ∃ out, filterMessage self m = .ok out ∧
      (∀ d, d ∈ out.detections ↔
        d ∈ m.detections ∧ passes self.confidence_threshold_ d = true) ∧
      (∀ d ∈ out.detections, topPasses self.confidence_threshold_ d = true) ∧
      (∀ d r rs, d.results = r :: rs →
        F64.ge r.hypothesis.score self.confidence_threshold_ = false →
        d ∉ out.detections) := by
  refine ⟨_, filterMessage_ok self m, ?_, ?_, ?_⟩
  · intro d
    exact List.mem_filter
  · intro d hd
    exact passes_topPasses _ d (List.mem_filter.1 hd).2
  · intro d r rs hr hs hd
    have hp := (List.mem_filter.1 hd).2
    simp [passes, hr, hs] at hp

/-! ## Basic facts about the handlers -/

theorem filterMessage_eq_filtered (s : Display) (m : Detection3DArray) :
    filterMessage s m = .ok (filtered s m) :=
  filterMessage_ok s m

theorem F64.lt_eq_false_of_ge (a b : F64) (h : F64.ge a b = true) : F64.lt a b = false := by
  cases a <;> cases b <;> simp_all [F64.ge, F64.lt]

theorem renderCalls_append (a b : List Call) :
    renderCalls (a ++ b) = renderCalls a ++ renderCalls b := by
  simp [renderCalls]

theorem clearCalls_append (a b : List Call) :
    clearCalls (a ++ b) = clearCalls a ++ clearCalls b := by
  simp [clearCalls]

theorem renderCalls_renderOf (s : Display) (m : Detection3DArray) :
    renderCalls [renderOf s m] = [renderOf s m] := by
  unfold renderOf
  split <;> simp [renderCalls]

theorem renderOf_rendered (s : Display) (m : Detection3DArray) :
    (renderOf s m).rendered = some (filtered s m) := by
  unfold renderOf
  split <;> simp [Call.rendered]

theorem processMessage_ok (s : Display) (msg : Detection3DArray) :
    processMessage s msg = .ok
      { s with latest_msg := some msg, calls := s.calls ++ [renderOf s msg] } := by
  unfold processMessage
  simp only [filterMessage_eq_filtered, Except.bind]
  cases h : s.only_edge_ <;> simp [renderOf, filtered, Display.call, h]

theorem updateEdge_ok (s : Display) :
    updateEdge s = .ok
      (match s.latest_msg with
       | some latest =>
         { s with only_edge_ := s.only_edge_property,
                  line_width_hidden := !s.only_edge_property,
                  calls := s.calls ++
                    [renderOf { s with only_edge_ := s.only_edge_property } latest] }
       | none =>
         { s with only_edge_ := s.only_edge_property,
                  line_width_hidden := !s.only_edge_property }) := by
  unfold updateEdge
  cases hm : s.latest_msg <;> cases hp : s.only_edge_property <;>
    simp [filterMessage_eq_filtered, Except.bind, renderOf, filtered, Display.call, hm, hp]

theorem updateLineWidth_ok (s : Display) :
    updateLineWidth s = .ok
      (match s.latest_msg with
       | some latest =>
         { s with line_width := s.line_width_property,
                  calls := s.calls ++
                    [renderOf { s with line_width := s.line_width_property } latest] }
       | none => { s with line_width := s.line_width_property }) := by
  unfold updateLineWidth
  cases hm : s.latest_msg <;> simp [processMessage_ok, renderOf, filtered, hm]

theorem updateAlpha_ok (s : Display) :
    updateAlpha s = .ok
      (match s.latest_msg with
       | some latest =>
         { s with alpha := s.alpha_property,
                  calls := s.calls ++ [renderOf { s with alpha := s.alpha_property } latest] }
       | none => { s with alpha := s.alpha_property }) := by
  unfold updateAlpha
  cases hm : s.latest_msg <;> simp [processMessage_ok, renderOf, filtered, hm]

theorem updateShowScores_ok (s : Display) :
    updateShowScores s = .ok
      (match s.latest_msg with
       | some latest =>
         { s with show_score_ := s.show_score_property,
                  calls := s.calls ++
                    [renderOf { s with show_score_ := s.show_score_property } latest] }
       | none => { s with show_score_ := s.show_score_property }) := by
  unfold updateShowScores
  cases hm : s.latest_msg <;> simp [processMessage_ok, renderOf, filtered, hm]

theorem updateThreshold_ok (s : Display) :
    updateThreshold s = .ok
      (match s.latest_msg with
       | some latest =>
         { s with confidence_threshold_ := s.confidence_threshold_property,
                  calls := s.calls ++
                    [.rosTopicDisplayReset, .clearMarkers, .edgesClear,
                     renderOf
                       { s with confidence_threshold_ := s.confidence_threshold_property }
                       latest] }
       | none => { s with confidence_threshold_ := s.confidence_threshold_property }) := by
  unfold updateThreshold
  cases hm : s.latest_msg <;>
    simp [processMessage_ok, renderOf, filtered, reset, Display.call, hm]

theorem updateAutocomputeColors_ok (s : Display) :
    updateAutocomputeColors s = .ok
      (match s.latest_msg with
       | some latest =>
         { s with only_edge_ := s.only_edge_property,
                  line_width_hidden := !s.only_edge_property,
                  calls := s.calls ++
                    (if s.autocompute_colors_property then [Call.updateColorConfig] else []) ++
                    [renderOf { s with only_edge_ := s.only_edge_property } latest] }
       | none =>
         { s with only_edge_ := s.only_edge_property,
                  line_width_hidden := !s.only_edge_property,
                  calls := s.calls ++
                    (if s.autocompute_colors_property then [Call.updateColorConfig]
                     else []) }) := by
  unfold updateAutocomputeColors
  rw [updateEdge_ok]
  cases ha : s.autocompute_colors_property <;> cases hm : s.latest_msg <;>
    simp [Display.call, renderOf, filtered, hm, ha]

theorem renderCalls_reset_renderOf (l : List Call) (s : Display) (m : Detection3DArray) :
    renderCalls (l ++ [Call.rosTopicDisplayReset, Call.clearMarkers, Call.edgesClear,
      renderOf s m]) = renderCalls l ++ [renderOf s m] := by
  rw [show ([Call.rosTopicDisplayReset, Call.clearMarkers, Call.edgesClear, renderOf s m]
      : List Call) = [Call.rosTopicDisplayReset, Call.clearMarkers, Call.edgesClear] ++
        [renderOf s m] from rfl]
  rw [renderCalls_append, renderCalls_append, renderCalls_renderOf]
  rfl

theorem renderCalls_colorCalls (b : Bool) :
    renderCalls (if b then [Call.updateColorConfig] else []) = [] := by
  cases b <;> simp [renderCalls]

theorem clearCalls_colorCalls (b : Bool) :
    clearCalls (if b then [Call.updateColorConfig] else []) = [] := by
  cases b <;> simp [clearCalls]

/-! ## processMessage and updateThreshold -/

/-- C7: `processMessage` stores the message as the latest one and makes exactly
one rendering call, on `filterMessage` of that message under the current
threshold, with the current show-score flag: `showBoxes` when the edge flag is
off, `showEdges` when it is on. No other field of the display changes. -/
theorem processMessage_renders_once (s : Display) (msg : Detection3DArray) :
    ∃ s' out, processMessage s msg = .ok s' ∧ filterMessage s msg = .ok out ∧
      s'.latest_msg = some msg ∧
      s'.calls = s.calls ++
        [if s.only_edge_ then Call.showEdges out s.show_score_ s.line_width s.alpha
         else Call.showBoxes out s.show_score_ s.line_width s.alpha] ∧
      s' = { s with latest_msg := some msg, calls := s'.calls } ∧
      s'.confidence_threshold_ = s.confidence_threshold_ ∧
      s'.only_edge_ = s.only_edge_ ∧ s'.show_score_ = s.show_score_ ∧
      s'.line_width = s.line_width ∧ s'.alpha = s.alpha := by
  refine ⟨_, _, processMessage_ok s msg, filterMessage_eq_filtered s msg, rfl, ?_, rfl, rfl,
    rfl, rfl, rfl, rfl⟩
  simp only [renderOf]

/-- C4: when a message has been received, `updateThreshold` caches the panel's
threshold, then calls the base reset, clears the markers and the edge cache,
and only then makes one rendering call on `filterMessage` of the latest
message under the new threshold; no detection handed over has a first score
below the new threshold. -/
theorem updateThreshold_rerenders (s : Display) (m : Detection3DArray)
    (h : s.latest_msg = some m) :
    ∃ s' out, updateThreshold s = .ok s' ∧
      filterMessage s' m = .ok out ∧
      s'.confidence_threshold_ = s.confidence_threshold_property ∧
      s'.calls = s.calls ++
        [Call.rosTopicDisplayReset, Call.clearMarkers, Call.edgesClear,
         if s.only_edge_ then Call.showEdges out s.show_score_ s.line_width s.alpha
         else Call.showBoxes out s.show_score_ s.line_width s.alpha] ∧
      s'.latest_msg = some m ∧
      ∀ d ∈ out.detections, ∃ r rs, d.results = r :: rs ∧
        F64.ge r.hypothesis.score s.confidence_threshold_property = true ∧
        F64.lt r.hypothesis.score s.confidence_threshold_property = false := by
  refine ⟨_, _, updateThreshold_ok s, filterMessage_eq_filtered _ m, ?_, ?_, ?_, ?_⟩
  · simp [h]
  · simp only [h, renderOf, filtered]
  · simp [h]
  · intro d hd
    simp only [h, filtered] at hd
    obtain ⟨r, rs, hr, hs⟩ := (passes_iff _ d).1 (List.mem_filter.1 hd).2
    exact ⟨r, rs, hr, hs, F64.lt_eq_false_of_ge _ _ hs⟩

/-- C4 at a concrete display: `shownDisplay` with the panel's threshold raised to 0.75. -/
theorem updateThreshold_rerenders_witness :
    ({ shownDisplay with confidence_threshold_property := .fin (3 / 4) } : Display).latest_msg
        = some exampleMsg ∧
      ∃ s' out,
        updateThreshold { shownDisplay with confidence_threshold_property := .fin (3 / 4) }
          = .ok s' ∧
        filterMessage s' exampleMsg = .ok out ∧
        s'.confidence_threshold_ = .fin (3 / 4) ∧
        s'.calls = shownDisplay.calls ++
          [Call.rosTopicDisplayReset, Call.clearMarkers, Call.edgesClear,
           if shownDisplay.only_edge_ then
             Call.showEdges out shownDisplay.show_score_ shownDisplay.line_width
               shownDisplay.alpha
           else
             Call.showBoxes out shownDisplay.show_score_ shownDisplay.line_width
               shownDisplay.alpha] ∧
        s'.latest_msg = some exampleMsg ∧
        ∀ d ∈ out.detections, ∃ r rs, d.results = r :: rs ∧
          F64.ge r.hypothesis.score (.fin (3 / 4)) = true ∧
          F64.lt r.hypothesis.score (.fin (3 / 4)) = false :=
  ⟨rfl, updateThreshold_rerenders
    { shownDisplay with confidence_threshold_property := .fin (3 / 4) } exampleMsg rfl⟩

/-! ## The property handlers -/

/-- With a message received, each of the six handlers that reprocess caches its
property and appends one rendering call, made under the refreshed members
(`updateThreshold` after the three calls of `reset`, `updateAutocomputeColors`
after `updateColorConfig` when its property is on). -/
theorem handlers_rerender_with_message (s : Display) (m : Detection3DArray)
    (h : s.latest_msg = some m) :
    (∃ s', updateEdge s = .ok s' ∧ s'.only_edge_ = s.only_edge_property ∧
        s'.latest_msg = some m ∧ s'.calls = s.calls ++ [renderOf s' m]) ∧
      (∃ s', updateLineWidth s = .ok s' ∧ s'.line_width = s.line_width_property ∧
        s'.latest_msg = some m ∧ s'.calls = s.calls ++ [renderOf s' m]) ∧
      (∃ s', updateAlpha s = .ok s' ∧ s'.alpha = s.alpha_property ∧
        s'.latest_msg = some m ∧ s'.calls = s.calls ++ [renderOf s' m]) ∧
      (∃ s', updateShowScores s = .ok s' ∧ s'.show_score_ = s.show_score_property ∧
        s'.latest_msg = some m ∧ s'.calls = s.calls ++ [renderOf s' m]) ∧
      (∃ s', updateThreshold s = .ok s' ∧
        s'.confidence_threshold_ = s.confidence_threshold_property ∧
        s'.latest_msg = some m ∧
        s'.calls = s.calls ++
          [Call.rosTopicDisplayReset, Call.clearMarkers, Call.edgesClear, renderOf s' m]) ∧
      (∃ s', updateAutocomputeColors s = .ok s' ∧ s'.only_edge_ = s.only_edge_property ∧
        s'.latest_msg = some m ∧
        s'.calls = s.calls ++
          (if s.autocompute_colors_property then [Call.updateColorConfig] else []) ++
          [renderOf s' m]) := by
  refine ⟨⟨_, updateEdge_ok s, ?_⟩, ⟨_, updateLineWidth_ok s, ?_⟩, ⟨_, updateAlpha_ok s, ?_⟩,
    ⟨_, updateShowScores_ok s, ?_⟩, ⟨_, updateThreshold_ok s, ?_⟩,
    ⟨_, updateAutocomputeColors_ok s, ?_⟩⟩ <;>
  · simp only [h]
    refine ⟨?_, ?_, ?_⟩ <;> first | rfl | exact h | trivial

/-- With no message received, none of the seven handlers makes a rendering
call or a clearing call. -/
theorem handlers_idle_without_message (s : Display) (h : s.latest_msg = none) :
    ∀ handler ∈ [updateEdge, updateLineWidth, updateAlpha, updateShowScores,
        updateThreshold, updateColorConfigs, updateAutocomputeColors],
      ∃ s', handler s = .ok s' ∧ s'.latest_msg = none ∧
        renderCalls s'.calls = renderCalls s.calls ∧
        clearCalls s'.calls = clearCalls s.calls := by
  intro handler hh
  simp only [List.mem_cons, List.mem_singleton, List.not_mem_nil, or_false] at hh
  rcases hh with rfl | rfl | rfl | rfl | rfl | rfl | rfl
  · exact ⟨_, updateEdge_ok s, by simp [h], by simp [h], by simp [h]⟩
  · exact ⟨_, updateLineWidth_ok s, by simp [h], by simp [h], by simp [h]⟩
  · exact ⟨_, updateAlpha_ok s, by simp [h], by simp [h], by simp [h]⟩
  · exact ⟨_, updateShowScores_ok s, by simp [h], by simp [h], by simp [h]⟩
  · exact ⟨_, updateThreshold_ok s, by simp [h], by simp [h], by simp [h]⟩
  · exact ⟨_, rfl, by simp [h, Display.call], by simp [Display.call, renderCalls],
      by simp [Display.call, clearCalls]⟩
  · exact ⟨_, updateAutocomputeColors_ok s, by simp [h],
      by simp [h, renderCalls_append, renderCalls_colorCalls],
      by simp [h, clearCalls_append, clearCalls_colorCalls]⟩

/-- C6 at the failing input: `shownDisplay`, which is `freshDisplay` after it
received `exampleMsg`, holds that message and shows it as boxes. When the configuration path is edited, `updateColorConfigs` only calls
`updateColorConfig`: it does not filter the message again and makes no
rendering call. Its sibling `updateAutocomputeColors`, on the same display,
calls `updateColorConfig` and then renders the filtered message again. -/
theorem updateColorConfigs_no_rerender :
    processMessage freshDisplay exampleMsg = .ok shownDisplay ∧
      shownDisplay.latest_msg = some exampleMsg ∧
      step shownDisplay (.editConfigPath "colors.yaml") = .ok
        { shownDisplay with
          string_property := "colors.yaml",
          calls := shownDisplay.calls ++ [Call.updateColorConfig] } ∧
      renderCalls (shownDisplay.calls ++ [Call.updateColorConfig])
        = renderCalls shownDisplay.calls ∧
      step shownDisplay (.editAutocompute true) = .ok
        { shownDisplay with
          autocompute_colors_property := true,
          calls := shownDisplay.calls ++
            [Call.updateColorConfig,
             Call.showBoxes exampleFiltered false (.fin (1 / 20)) (.fin 1)] } := by
  refine ⟨?_, rfl, rfl, ?_, ?_⟩
  · rw [processMessage_ok]
    norm_num [shownDisplay, freshDisplay, exampleMsg, renderOf, filtered, messageOf,
      detectionOf, hypothesisOf, passes, F64.ge, List.filter]
  · simp [renderCalls]
  · simp only [step]
    rw [updateAutocomputeColors_ok]
    norm_num [shownDisplay, freshDisplay, exampleMsg, exampleFiltered, renderOf, filtered,
      messageOf, detectionOf, hypothesisOf, passes, F64.ge, List.filter]

/-! ## Runs of events -/

theorem run_invariant (P : Display → Prop)
    (hstep : ∀ s e, P s → ∃ s', step s e = .ok s' ∧ P s') :
    ∀ (es : List Event) (s : Display), P s → ∃ s', run s es = .ok s' ∧ P s' := by
  intro es
  induction es with
  | nil => intro s hs; exact ⟨s, rfl, hs⟩
  | cons e es ih =>
    intro s hs
    obtain ⟨s1, h1, hp1⟩ := hstep s e hs
    obtain ⟨s2, h2, hp2⟩ := ih s1 hp1
    exact ⟨s2, by simp [run, h1, Except.bind, h2], hp2⟩

theorem lineWidth_of_eq (s s' : Display) (hs : LineWidthShownIffEdge s)
    (hh : s'.line_width_hidden = s.line_width_hidden) (he : s'.only_edge_ = s.only_edge_) :
    LineWidthShownIffEdge s' := by
  unfold LineWidthShownIffEdge at *
  rw [hh, he]
  exact hs

theorem lineWidth_of_not (s' : Display) (h : s'.line_width_hidden = !s'.only_edge_) :
    LineWidthShownIffEdge s' := by
  unfold LineWidthShownIffEdge
  rw [h]
  cases s'.only_edge_ <;> simp

theorem step_lineWidth (s : Display) (e : Event) (hs : LineWidthShownIffEdge s) :
    ∃ s', step s e = .ok s' ∧ LineWidthShownIffEdge s' := by
  cases e with
  | message msg => exact ⟨_, processMessage_ok s msg, lineWidth_of_eq s _ hs rfl rfl⟩
  | editOnlyEdge v =>
    refine ⟨_, updateEdge_ok _, lineWidth_of_not _ ?_⟩
    cases s.latest_msg <;> rfl
  | editLineWidth v =>
    refine ⟨_, updateLineWidth_ok _, lineWidth_of_eq s _ hs ?_ ?_⟩ <;>
      cases s.latest_msg <;> rfl
  | editAlpha v =>
    refine ⟨_, updateAlpha_ok _, lineWidth_of_eq s _ hs ?_ ?_⟩ <;>
      cases s.latest_msg <;> rfl
  | editShowScore v =>
    refine ⟨_, updateShowScores_ok _, lineWidth_of_eq s _ hs ?_ ?_⟩ <;>
      cases s.latest_msg <;> rfl
  | editConfigPath v => exact ⟨_, rfl, lineWidth_of_eq s _ hs rfl rfl⟩
  | editThreshold v =>
    refine ⟨_, updateThreshold_ok _, lineWidth_of_eq s _ hs ?_ ?_⟩ <;>
      cases s.latest_msg <;> rfl
  | editAutocompute v =>
    refine ⟨_, updateAutocomputeColors_ok _, lineWidth_of_not _ ?_⟩
    cases s.latest_msg <;> rfl
  | reset => exact ⟨_, rfl, lineWidth_of_eq s _ hs rfl rfl⟩
  | update wall_dt ros_dt => exact ⟨_, rfl, lineWidth_of_eq s _ hs rfl rfl⟩
  | load => exact ⟨_, rfl, lineWidth_of_eq s _ hs rfl rfl⟩

/-! ## Box mode and edge mode -/

theorem onInitialize_line_width_hidden (s : Display) (lw a thr : F64) :
    (onInitialize s lw a thr).line_width_hidden = true := by
  simp [onInitialize, Display.call]

theorem onInitialize_only_edge (s : Display) (lw a thr : F64) :
    (onInitialize s lw a thr).only_edge_ = s.only_edge_property := by
  simp [onInitialize, Display.call]

theorem onInitialize_construct_lineWidth (only_edge0 show_score0 : Bool)
    (lw0 a0 thr0 lw a thr : F64) :
    LineWidthShownIffEdge
      (onInitialize (construct only_edge0 show_score0 lw0 a0 thr0) lw a thr) := by
  unfold LineWidthShownIffEdge
  rw [onInitialize_line_width_hidden, onInitialize_only_edge]
  simp [construct]

/-- C9: the constructor creates the edge-mode property as false, so after
`onInitialize` the line-width property is hidden and the cached edge flag is
false: visible iff edge mode. After every sequence of events that follows, the
line-width property is still visible exactly when `only_edge_` is true, and an
`updateEdge` run then, for either value the edge-mode property holds at that
moment, caches that value and shows the line width exactly when it is true.
From any state at all, `updateEdge` establishes the same. -/
theorem line_width_shown_iff_edge (only_edge0 show_score0 : Bool)
    (lw0 a0 thr0 lw a thr : F64) (es : List Event) :
    ((onInitialize (construct only_edge0 show_score0 lw0 a0 thr0) lw a thr).line_width_hidden
          = true ∧
        (onInitialize (construct only_edge0 show_score0 lw0 a0 thr0) lw a thr).only_edge_
          = false ∧
        LineWidthShownIffEdge
          (onInitialize (construct only_edge0 show_score0 lw0 a0 thr0) lw a thr)) ∧
      (∃ s, run (onInitialize (construct only_edge0 show_score0 lw0 a0 thr0) lw a thr) es
          = .ok s ∧
        LineWidthShownIffEdge s ∧
        ∀ v, ∃ s', updateEdge { s with only_edge_property := v } = .ok s' ∧
          s'.only_edge_ = v ∧ s'.line_width_hidden = (!v) ∧ LineWidthShownIffEdge s') ∧
      (∀ s, ∃ s', updateEdge s = .ok s' ∧ s'.only_edge_ = s.only_edge_property ∧
        s'.line_width_hidden = (!s.only_edge_property) ∧ LineWidthShownIffEdge s') := by
  have hedge : ∀ s, ∃ s', updateEdge s = .ok s' ∧ s'.only_edge_ = s.only_edge_property ∧
      s'.line_width_hidden = (!s.only_edge_property) ∧ LineWidthShownIffEdge s' := by
    intro s
    refine ⟨_, updateEdge_ok s, ?_, ?_, lineWidth_of_not _ ?_⟩ <;>
      cases s.latest_msg <;> rfl
  refine ⟨⟨onInitialize_line_width_hidden _ _ _ _,
    (onInitialize_only_edge _ _ _ _).trans rfl,
    onInitialize_construct_lineWidth _ _ _ _ _ _ _ _⟩, ?_, hedge⟩
  obtain ⟨s, hs, hl⟩ := run_invariant LineWidthShownIffEdge step_lineWidth es _
    (onInitialize_construct_lineWidth only_edge0 show_score0 lw0 a0 thr0 lw a thr)
  exact ⟨s, hs, hl, fun v => hedge { s with only_edge_property := v }⟩

/-! ## Changing the threshold -/

theorem F64.ge_trans (x b a : F64) (h1 : F64.ge x b = true) (h2 : F64.ge b a = true) :
    F64.ge x a = true := by
  cases x <;> cases b <;> cases a <;> simp_all [F64.ge]
  exact le_trans h2 h1

theorem F64.ge_and_ge (x t1 t2 : F64) (h1 : F64.isNaN t1 = false)
    (h2 : F64.isNaN t2 = false) :
    (F64.ge x t2 && F64.ge x t1) = F64.ge x (F64.max t1 t2) := by
  cases x <;> cases t1 <;> cases t2 <;> simp_all [F64.ge, F64.max, F64.lt, F64.isNaN]
  all_goals split_ifs with hab
  all_goals simp only [F64.ge]
  · rename_i x a b
    by_cases hb : b ≤ x
    · simp [hb, le_trans (le_of_lt hab) hb]
    · simp [hb]
  · rename_i x a b
    by_cases ha : a ≤ x
    · simp [ha, le_trans (not_lt.1 hab) ha]
    · simp [ha]

theorem passes_and_passes (d : Detection3D) (t1 t2 : F64) (h1 : F64.isNaN t1 = false)
    (h2 : F64.isNaN t2 = false) :
    (passes t2 d && passes t1 d) = passes (F64.max t1 t2) d := by
  unfold passes
  cases d.results with
  | nil => rfl
  | cons r rs => exact F64.ge_and_ge _ t1 t2 h1 h2

theorem passes_mono (d : Detection3D) (t1 t2 : F64) (h : F64.le t1 t2 = true)
    (hp : passes t2 d = true) : passes t1 d = true := by
  obtain ⟨r, rs, hr, hs⟩ := (passes_iff t2 d).1 hp
  exact (passes_iff t1 d).2 ⟨r, rs, hr, F64.ge_trans _ _ _ hs h⟩

theorem editThreshold_ok (s : Display) (m : Detection3DArray) (t : F64)
    (h : s.latest_msg = some m) :
    step s (.editThreshold t) = .ok
      { s with confidence_threshold_property := t, confidence_threshold_ := t,
               calls := s.calls ++
                 [Call.rosTopicDisplayReset, Call.clearMarkers, Call.edgesClear,
                  renderOf { s with confidence_threshold_ := t } m] } := by
  show updateThreshold _ = _
  rw [updateThreshold_ok]
  simp only [h]
  rfl

theorem lastRender_reset_renderOf (s s' : Display) (l : List Call) (m : Detection3DArray)
    (h : s'.calls = l ++ [Call.rosTopicDisplayReset, Call.clearMarkers, Call.edgesClear,
      renderOf s m]) :
    lastRender s' = some (renderOf s m) := by
  unfold lastRender
  rw [h, renderCalls_reset_renderOf, List.getLast?_concat]

/-- C10: with a message `m` received, editing the threshold to `t1` and then to
`t2` hands the renderer the same call as editing it to `t2` alone, namely
`filterMessage` of the stored, unfiltered `m` at `t2`, so every detection of `m`
whose first score meets `t2` is rendered again. On the filter itself: for
thresholds that are numbers, filtering at `t2` the result of filtering at `t1`
is filtering at `max t1 t2`; filtering is idempotent; and for `t1 <= t2` the
output at `t2` is a subsequence of the output at `t1`. -/
theorem threshold_history_independent (s : Display) (m : Detection3DArray) (t1 t2 : F64)
    (h : s.latest_msg = some m) :
    (∃ s1 s12 s2 out,
      step s (.editThreshold t1) = .ok s1 ∧ step s1 (.editThreshold t2) = .ok s12 ∧
      step s (.editThreshold t2) = .ok s2 ∧
      filterMessage s12 m = .ok out ∧ filterMessage s2 m = .ok out ∧
      s12.confidence_threshold_ = t2 ∧ s12.latest_msg = some m ∧
      lastRender s12 = lastRender s2 ∧
      (lastRender s12).bind Call.rendered = some out ∧
      (∀ d, d ∈ out.detections ↔ d ∈ m.detections ∧ passes t2 d = true)) ∧
    (F64.isNaN t1 = false → F64.isNaN t2 = false →
      ∃ o1 o, filterMessage { s with confidence_threshold_ := t1 } m = .ok o1 ∧
        filterMessage { s with confidence_threshold_ := t2 } o1 = .ok o ∧
        filterMessage { s with confidence_threshold_ := F64.max t1 t2 } m = .ok o) ∧
    (∃ o, filterMessage s m = .ok o ∧ filterMessage s o = .ok o) ∧
    (F64.le t1 t2 = true →
      ∃ o1 o2, filterMessage { s with confidence_threshold_ := t1 } m = .ok o1 ∧
        filterMessage { s with confidence_threshold_ := t2 } m = .ok o2 ∧
        o2.detections.Sublist o1.detections) := by
  refine ⟨?_, ?_, ?_, ?_⟩
  · refine ⟨_, _, _, _, editThreshold_ok s m t1 h, editThreshold_ok _ m t2 h,
      editThreshold_ok s m t2 h, filterMessage_eq_filtered _ m, filterMessage_eq_filtered _ m,
      rfl, h, ?_, ?_, ?_⟩
    · rw [lastRender_reset_renderOf _ _ _ m rfl, lastRender_reset_renderOf _ _ _ m rfl]
      rfl
    · rw [lastRender_reset_renderOf _ _ _ m rfl]
      exact renderOf_rendered _ m
    · intro d
      exact List.mem_filter
  · intro h1 h2
    refine ⟨_, _, filterMessage_eq_filtered _ m, filterMessage_eq_filtered _ _, ?_⟩
    rw [filterMessage_eq_filtered]
    simp only [filtered, List.filter_filter, passes_and_passes _ t1 t2 h1 h2]
  · refine ⟨_, filterMessage_eq_filtered s m, ?_⟩
    rw [filterMessage_eq_filtered]
    simp [filtered, List.filter_filter]
  · intro hle
    refine ⟨_, _, filterMessage_eq_filtered _ m, filterMessage_eq_filtered _ m, ?_⟩
    exact List.monotone_filter_right _ fun d hd => passes_mono d t1 t2 hle hd

/-- C10 on a concrete display: `shownDisplay`, threshold raised to 0.75 and
then lowered to 0.25. -/
theorem threshold_history_independent_witness :
    shownDisplay.latest_msg = some exampleMsg ∧
      ∃ s1 s12 s2 out,
        step shownDisplay (.editThreshold (.fin (3 / 4))) = .ok s1 ∧
        step s1 (.editThreshold (.fin (1 / 4))) = .ok s12 ∧
        step shownDisplay (.editThreshold (.fin (1 / 4))) = .ok s2 ∧
        filterMessage s12 exampleMsg = .ok out ∧ filterMessage s2 exampleMsg = .ok out ∧
        s12.confidence_threshold_ = .fin (1 / 4) ∧ s12.latest_msg = some exampleMsg ∧
        lastRender s12 = lastRender s2 ∧
        (lastRender s12).bind Call.rendered = some out ∧
        (∀ d, d ∈ out.detections ↔
          d ∈ exampleMsg.detections ∧ passes (.fin (1 / 4)) d = true) :=
  ⟨rfl, (threshold_history_independent shownDisplay exampleMsg (.fin (3 / 4)) (.fin (1 / 4))
    rfl).1⟩

end rviz_plugins
